import Mathlib

/-!
Verification development for the Aquawatch bloom-risk core.

Shallow embedding of the risk-modelling and time-series-analysis engine:
  - `models/bloom_probability_model.py` (risk aggregation, WHO severity)
  - `models/growth_rate_model.py` (cardinal-temperature correction)
  - `temperature_features.py` (7-day OLS trend slope)
  - `light_features.py` (photoperiod, light score)
  - `analysis/forecast_engine.py` (7-day forecast padding)
  - `analysis/trend_analysis.py` (Mann-Kendall, Theil-Sen)

Python floats are modelled as exact reals (or rationals where the code is
purely algebraic); decimal literals are read exactly.  Python `round(x, k)`
rounds half to even; it is modelled exactly on the idealised values by
`pyRoundQ` / `pyRoundR` below.
-/

namespace Aquawatch

/-- `np.clip(x, lo, hi)` over rationals: `min(max(x, lo), hi)`. -/
def clipQ (x lo hi : ℚ) : ℚ := min (max x lo) hi

/-- `np.clip(x, lo, hi)` over reals: `min(max(x, lo), hi)`. -/
noncomputable def clipR (x lo hi : ℝ) : ℝ := min (max x lo) hi

/-- Python `round` to the nearest integer, half to even, on rationals. -/
def pyRoundQ (y : ℚ) : ℤ :=
  if y - ⌊y⌋ < 1/2 then ⌊y⌋
  else if 1/2 < y - ⌊y⌋ then ⌊y⌋ + 1
  else if 2 ∣ ⌊y⌋ then ⌊y⌋ else ⌊y⌋ + 1

/-- Python `round` to the nearest integer, half to even, on reals. -/
noncomputable def pyRoundR (y : ℝ) : ℤ :=
  if y - ⌊y⌋ < 1/2 then ⌊y⌋
  else if 1/2 < y - ⌊y⌋ then ⌊y⌋ + 1
  else if 2 ∣ ⌊y⌋ then ⌊y⌋ else ⌊y⌋ + 1

/-- Python `round(x, 1)` on rationals. -/
def pyRound1Q (x : ℚ) : ℚ := (pyRoundQ (10 * x) : ℚ) / 10

/-- Python `round(x, 1)` on reals. -/
noncomputable def pyRound1R (x : ℝ) : ℝ := (pyRoundR (10 * x) : ℝ) / 10

/-- Python `round(x, 2)` on reals. -/
noncomputable def pyRound2R (x : ℝ) : ℝ := (pyRoundR (100 * x) : ℝ) / 100

/-!
## `models/growth_rate_model.py`

`_arrhenius_correction(water_temp)`: cardinal temperature model
(Rosso et al. 1993) with `t_opt = 28`, `t_min = 5`, `t_max = 40`;
returns `0.01` outside the open interval `(5, 40)` and on a zero
denominator, else `np.clip(num / den, 0.01, 1.0)`.
All arithmetic is rational, so the embedding is over `ℚ`.
-/

def arrhenius_correction (water_temp : ℚ) : ℚ :=
  let t_opt : ℚ := 28
  let t_min : ℚ := 5
  let t_max : ℚ := 40
  if water_temp ≤ t_min ∨ t_max ≤ water_temp then 0.01
  else
    let num := (water_temp - t_max) * (water_temp - t_min) ^ 2
    let den := (t_opt - t_min) *
      ((t_opt - t_min) * (water_temp - t_opt) - (t_opt - t_max) * (t_opt + t_min - 2 * water_temp))
    if den = 0 then 0.01
    else clipQ (num / den) 0.01 1

/-- **C7.** The cardinal-temperature correction used by `compute_growth_rate`
equals exactly `0.01` for every `water_temp ≤ 5` or `≥ 40` (the boundary
floor), and its value at `water_temp = 28` (the optimum, where it equals `1`)
is strictly larger than at `5` or `40`. -/
theorem c7_arrhenius_boundary :
    (∀ t : ℚ, t ≤ 5 → arrhenius_correction t = 0.01) ∧
    (∀ t : ℚ, 40 ≤ t → arrhenius_correction t = 0.01) ∧
    arrhenius_correction 28 = 1 ∧
    arrhenius_correction 5 < arrhenius_correction 28 ∧
    arrhenius_correction 40 < arrhenius_correction 28 := by
  refine ⟨?_, ?_, ?_, ?_, ?_⟩
  · intro t ht
    simp [arrhenius_correction, ht]
  · intro t ht
    simp [arrhenius_correction, ht]
  · norm_num [arrhenius_correction, clipQ]
  · norm_num [arrhenius_correction, clipQ]
  · norm_num [arrhenius_correction, clipQ]

/-- Witness for C7 at concrete boundary inputs. -/
theorem c7_arrhenius_boundary_witness :
    arrhenius_correction 0 = 0.01 ∧ arrhenius_correction 45 = 0.01 :=
  ⟨c7_arrhenius_boundary.1 0 (by norm_num), c7_arrhenius_boundary.2.1 45 (by norm_num)⟩

/-!
## `light_features.py`

Trigonometric functions force the embedding over `ℝ`.
-/

/-- `normalize_uv(uv_index, max_uv=11)`: `np.clip(uv_index / max_uv, 0, 1)`. -/
noncomputable def normalize_uv (uv_index : ℝ) : ℝ := clipR (uv_index / 11) 0 1

/-- The clamped hour-angle cosine inside `photoperiod`:
`np.clip(-tan(lat_rad) * tan(decl_rad), -1, 1)`. -/
noncomputable def hour_angle_cos (latitude day_of_year : ℝ) : ℝ :=
  let lat_rad := latitude * (Real.pi / 180)
  let decl := 23.44 * Real.cos (((172 - day_of_year) * 360 / 365) * (Real.pi / 180))
  let decl_rad := decl * (Real.pi / 180)
  clipR (-(Real.tan lat_rad * Real.tan decl_rad)) (-1) 1

/-- `photoperiod(latitude, day_of_year)`: day length in hours,
`24 * arccos(cos_ha) / pi` with the hour-angle cosine clamped to `[-1, 1]`. -/
noncomputable def photoperiod (latitude day_of_year : ℝ) : ℝ :=
  24 * Real.arccos (hour_angle_cos latitude day_of_year) / Real.pi

/-- `cloud_suppression(cloud_cover)`: fraction-or-percentage input,
`np.clip(1 - cc_frac, 0, 1)`. -/
noncomputable def cloud_suppression (cloud_cover : ℝ) : ℝ :=
  let cc_frac := if cloud_cover ≤ 1 then cloud_cover else cloud_cover / 100
  clipR (1 - cc_frac) 0 1

/-- `compute_light_score(uv_index, cloud_cover, latitude, day_of_year)`:
`100 × normalize_uv × clip(photoperiod/24, 0, 1) × cloud_suppression`. -/
noncomputable def compute_light_score
    (uv_index cloud_cover latitude day_of_year : ℝ) : ℝ :=
  let uv_norm := normalize_uv uv_index
  let daylen := photoperiod latitude day_of_year
  let daylen_norm := clipR (daylen / 24) 0 1
  let cloud_factor := cloud_suppression cloud_cover
  uv_norm * daylen_norm * cloud_factor * 100

/-- **C10.** The light-score computation is total and bounded: the hour-angle
cosine is clamped to `[-1, 1]` before `arccos` for every latitude and
day-of-year, the photoperiod lies in `[0, 24]` hours, and
`compute_light_score` returns a value in `[0, 100]`. -/
theorem c10_light_total_bounded :
    (∀ lat doy : ℝ, -1 ≤ hour_angle_cos lat doy ∧ hour_angle_cos lat doy ≤ 1) ∧
    (∀ lat doy : ℝ, 0 ≤ photoperiod lat doy ∧ photoperiod lat doy ≤ 24) ∧
    (∀ uv cloud lat doy : ℝ,
      0 ≤ compute_light_score uv cloud lat doy ∧
      compute_light_score uv cloud lat doy ≤ 100) := by
  have hclip_lo : ∀ x lo hi : ℝ, lo ≤ hi → lo ≤ clipR x lo hi := by
    intro x lo hi h
    exact le_min (le_max_right x lo) h
  have hclip_hi : ∀ x lo hi : ℝ, clipR x lo hi ≤ hi := fun x lo hi => min_le_right _ _
  have hha : ∀ lat doy : ℝ, -1 ≤ hour_angle_cos lat doy ∧ hour_angle_cos lat doy ≤ 1 := by
    intro lat doy
    exact ⟨hclip_lo _ _ _ (by norm_num), hclip_hi _ _ _⟩
  have hpp : ∀ lat doy : ℝ, 0 ≤ photoperiod lat doy ∧ photoperiod lat doy ≤ 24 := by
    intro lat doy
    unfold photoperiod
    constructor
    · exact div_nonneg
        (mul_nonneg (by norm_num) (Real.arccos_nonneg _)) Real.pi_pos.le
    · rw [div_le_iff₀ Real.pi_pos]
      have := Real.arccos_le_pi (hour_angle_cos lat doy)
      nlinarith [Real.pi_pos]
  refine ⟨hha, hpp, ?_⟩
  intro uv cloud lat doy
  unfold compute_light_score
  dsimp only
  have h1 : 0 ≤ normalize_uv uv ∧ normalize_uv uv ≤ 1 :=
    ⟨hclip_lo _ _ _ (by norm_num), hclip_hi _ _ _⟩
  have h2 : 0 ≤ clipR (photoperiod lat doy / 24) 0 1 ∧
      clipR (photoperiod lat doy / 24) 0 1 ≤ 1 :=
    ⟨hclip_lo _ _ _ (by norm_num), hclip_hi _ _ _⟩
  have h3 : 0 ≤ cloud_suppression cloud ∧ cloud_suppression cloud ≤ 1 := by
    unfold cloud_suppression
    exact ⟨hclip_lo _ _ _ (by norm_num), hclip_hi _ _ _⟩
  have hab : normalize_uv uv * clipR (photoperiod lat doy / 24) 0 1 ≤ 1 :=
    mul_le_one₀ h1.2 h2.1 h2.2
  have habc : normalize_uv uv * clipR (photoperiod lat doy / 24) 0 1 *
      cloud_suppression cloud ≤ 1 :=
    mul_le_one₀ hab h3.1 h3.2
  constructor
  · exact mul_nonneg (mul_nonneg (mul_nonneg h1.1 h2.1) h3.1) (by norm_num)
  · linarith [habc]

/-!
## `models/bloom_probability_model.py`

The exponential cell estimate and the geometric-mean aggregator force the
embedding over `ℝ`.  The growth-rate dict is modelled by its only consumed
entry `mu_per_day`; the optional CyFi dict by its nullable `cells_per_mL`.
Advisory text and component-score echo fields are presentational and omitted.
-/

/-- `_estimate_cells(risk_score)`:
`int(np.clip(100 * np.exp(risk_score * 0.115), 100, 20_000_000))`.
Python `int()` truncates toward zero; the clipped value is at least
`100 > 0`, so the truncation is the floor. -/
noncomputable def estimate_cells (risk_score : ℝ) : ℤ :=
  ⌊clipR (100 * Real.exp (risk_score * 0.115)) 100 20000000⌋

/-- `_who_severity(cells)`: WHO 2003 severity bucket of a cell count. -/
def who_severity (cells : ℤ) : String :=
  if cells < 20000 then "low_risk"
  else if cells < 100000 then "moderate_risk"
  else if cells < 10000000 then "high_risk"
  else "very_high_risk"

/-- The `(level, color, emoji)` triple returned by `_classify_risk`. -/
structure RiskLevel where
  level : String
  color : String
  emoji : String

/-- `_classify_risk(score)`: four fixed bands with strict `<` upper bounds. -/
noncomputable def classify_risk (score : ℝ) : RiskLevel :=
  if score < 25 then ⟨"SAFE", "#2ecc71", "✅"⟩
  else if score < 50 then ⟨"LOW", "#f1c40f", "⚠️"⟩
  else if score < 75 then ⟨"WARNING", "#e67e22", "🟠"⟩
  else ⟨"CRITICAL", "#e74c3c", "🔴"⟩

/-- The growth sub-score `np.clip(mu / 1.2 * 100, 0, 100)` used by both
aggregators. -/
noncomputable def growth_score (mu_per_day : ℝ) : ℝ :=
  clipR (mu_per_day / 1.2 * 100) 0 100

/-- The weighted geometric mean `exp(Σ w_i * ln(clip(s_i, 1e-3, 100)))` of
`calculate_bloom_risk`, in the dict insertion order
temperature, nutrients, stagnation, light, growth. -/
noncomputable def geo_mean (temperature nutrients stagnation light growth : ℝ) : ℝ :=
  Real.exp (0.30 * Real.log (clipR temperature 0.001 100)
    + 0.25 * Real.log (clipR nutrients 0.001 100)
    + 0.20 * Real.log (clipR stagnation 0.001 100)
    + 0.10 * Real.log (clipR light 0.001 100)
    + 0.15 * Real.log (clipR growth 0.001 100))

/-- The interaction boost of `calculate_bloom_risk`:
`0.10 * min(T, N)` when both `temperature_score > 60` and
`nutrient_score > 60`, else `0`. -/
noncomputable def interaction_boost_fn (temperature_score nutrient_score : ℝ) : ℝ :=
  if 60 < temperature_score ∧ 60 < nutrient_score then
    0.10 * min temperature_score nutrient_score
  else 0

/-- The pre-clamp, pre-round risk score of `calculate_bloom_risk`:
`geo_mean + interaction_boost`. -/
noncomputable def pre_clamp_risk
    (temperature_score nutrient_score stagnation_score light_score growth_rate_mu : ℝ) : ℝ :=
  geo_mean temperature_score nutrient_score stagnation_score light_score
      (growth_score growth_rate_mu)
    + interaction_boost_fn temperature_score nutrient_score

/-- Result record of `calculate_bloom_risk`. -/
structure BloomRisk where
  risk_score : ℝ
  risk_level : String
  risk_color : String
  who_level : String
  estimated_cells_per_ml : ℤ
  interaction_boost : ℝ

/-- `calculate_bloom_risk(temperature_score, nutrient_score, stagnation_score,
light_score, growth_rate_mu)`: weighted geometric mean plus interaction boost,
clipped to `[0, 100]`, rounded to one decimal, then classified. -/
noncomputable def calculate_bloom_risk
    (temperature_score nutrient_score stagnation_score light_score growth_rate_mu : ℝ) :
    BloomRisk :=
  let rs := pyRound1R (clipR (pre_clamp_risk temperature_score nutrient_score
    stagnation_score light_score growth_rate_mu) 0 100)
  let rl := classify_risk rs
  let cells := estimate_cells rs
  { risk_score := rs
    risk_level := rl.level
    risk_color := rl.color
    who_level := who_severity cells
    estimated_cells_per_ml := cells
    interaction_boost := pyRound2R (interaction_boost_fn temperature_score nutrient_score) }

/-- The CyFi satellite adjustment of `compute_bloom_probability`:
`+15 / +8 / +3 / 0` by cell-count breakpoints, `0` when the satellite
estimate is absent. -/
noncomputable def cyfi_adjustment (cyfi_cells : Option ℝ) : ℝ :=
  match cyfi_cells with
  | none => 0
  | some cells =>
    if 100000 < cells then 15
    else if 20000 < cells then 8
    else if 5000 < cells then 3
    else 0

/-- Result record of `compute_bloom_probability`. -/
structure BloomProbability where
  risk_score : ℝ
  risk_level : String
  who_severity : String
  estimated_cells_per_ml : ℤ
  confidence : String

/-- `compute_bloom_probability(t_score, n_score, s_score, l_score,
growth_rate, cyfi, data_confidence)`: weighted sum of sub-scores plus the
CyFi adjustment, clipped to `[0, 100]`, rounded to one decimal, then
classified. -/
noncomputable def compute_bloom_probability
    (t_score n_score s_score l_score mu_per_day : ℝ)
    (cyfi_cells : Option ℝ) (data_confidence : String) : BloomProbability :=
  let gscore := growth_score mu_per_day
  let base_score := 0.30 * t_score + 0.25 * n_score + 0.20 * s_score
    + 0.10 * l_score + 0.15 * gscore
  let rs := pyRound1R (clipR (base_score + cyfi_adjustment cyfi_cells) 0 100)
  let rl := classify_risk rs
  let cells := estimate_cells rs
  { risk_score := rs
    risk_level := rl.level
    who_severity := who_severity cells
    estimated_cells_per_ml := cells
    confidence := data_confidence }

/-! ### Numeric bounds on the exponential cell mapping -/

/-- `exp 23` is strictly between `9.6e9` and `9.8e9`. -/
theorem exp_twentythree_bounds :
    (9600000000 : ℝ) < Real.exp 23 ∧ Real.exp 23 < 9800000000 := by
  have h : Real.exp 23 = Real.exp 1 ^ 23 := by
    rw [show (23 : ℝ) = (23 : ℕ) * (1 : ℝ) by norm_num, Real.exp_nat_mul]
  constructor
  · rw [h]
    have h1 : (2.7182818283 : ℝ) ^ 23 ≤ Real.exp 1 ^ 23 :=
      pow_le_pow_left₀ (by norm_num) Real.exp_one_gt_d9.le 23
    have h2 : (9600000000 : ℝ) < 2.7182818283 ^ 23 := by norm_num
    linarith
  · rw [h]
    have h1 : Real.exp 1 ^ 23 ≤ (2.7182818286 : ℝ) ^ 23 :=
      pow_le_pow_left₀ (Real.exp_pos 1).le Real.exp_one_lt_d9.le 23
    have h2 : (2.7182818286 : ℝ) ^ 23 < 9800000000 := by norm_num
    linarith

/-- `exp 11.5` is strictly between `97959` and `98995`. -/
theorem exp_elevenhalf_bounds :
    (97959 : ℝ) < Real.exp 11.5 ∧ Real.exp 11.5 < 98995 := by
  have hsq : Real.exp 11.5 ^ 2 = Real.exp 23 := by
    rw [← Real.exp_nat_mul]; norm_num
  have hpos := Real.exp_pos (11.5 : ℝ)
  obtain ⟨hlb, hub⟩ := exp_twentythree_bounds
  constructor
  · nlinarith [hsq, hpos, hlb]
  · nlinarith [hsq, hpos, hub]

/-- `exp 5.75` is strictly between `311` and `315`. -/
theorem exp_fivethreequarter_bounds :
    (311 : ℝ) < Real.exp 5.75 ∧ Real.exp 5.75 < 315 := by
  have hsq : Real.exp 5.75 ^ 2 = Real.exp 11.5 := by
    rw [← Real.exp_nat_mul]; norm_num
  have hpos := Real.exp_pos (5.75 : ℝ)
  obtain ⟨hlb, hub⟩ := exp_elevenhalf_bounds
  constructor
  · nlinarith [hsq, hpos, hlb]
  · nlinarith [hsq, hpos, hub]

/-- Concrete bounds on the cell estimate at risk score 100. -/
theorem estimate_cells_100_bounds :
    9795900 ≤ estimate_cells 100 ∧ estimate_cells 100 < 9899500 := by
  obtain ⟨hlb, hub⟩ := exp_elevenhalf_bounds
  have harg : (100 : ℝ) * 0.115 = 11.5 := by norm_num
  have hclip : clipR (100 * Real.exp ((100 : ℝ) * 0.115)) 100 20000000
      = 100 * Real.exp 11.5 := by
    rw [harg]
    unfold clipR
    rw [max_eq_left (by nlinarith), min_eq_left (by nlinarith)]
  constructor
  · rw [estimate_cells, hclip, Int.le_floor]
    push_cast
    nlinarith
  · rw [estimate_cells, hclip, Int.floor_lt]
    push_cast
    nlinarith

/-- Concrete bounds on the cell estimate at risk score 50. -/
theorem estimate_cells_50_bounds :
    31100 ≤ estimate_cells 50 ∧ estimate_cells 50 < 31500 := by
  obtain ⟨hlb, hub⟩ := exp_fivethreequarter_bounds
  have harg : (50 : ℝ) * 0.115 = 5.75 := by norm_num
  have hclip : clipR (100 * Real.exp ((50 : ℝ) * 0.115)) 100 20000000
      = 100 * Real.exp 5.75 := by
    rw [harg]
    unfold clipR
    rw [max_eq_left (by nlinarith), min_eq_left (by nlinarith)]
  constructor
  · rw [estimate_cells, hclip, Int.le_floor]
    push_cast
    nlinarith
  · rw [estimate_cells, hclip, Int.floor_lt]
    push_cast
    nlinarith

/-- `estimate_cells` is monotone non-decreasing. -/
theorem estimate_cells_mono : Monotone estimate_cells := by
  intro a b hab
  unfold estimate_cells clipR
  apply Int.floor_le_floor
  have h : 100 * Real.exp (a * 0.115) ≤ 100 * Real.exp (b * 0.115) := by
    have := Real.exp_le_exp.mpr (by nlinarith : a * 0.115 ≤ b * 0.115)
    nlinarith
  exact min_le_min (max_le_max h le_rfl) le_rfl

/-- **C1 (counterexample).** The claim calibrates the mapping so that
`score ≈ 100` gives `~20M` cells; in fact at `risk_score = 100` the estimate
is strictly below `10,000,000` cells/mL (it is `⌊100·e^11.5⌋ ≈ 9.87M`), so the
`20,000,000` clamp ceiling is never approached on `[0, 100]`. -/
theorem c1_estimate_cells_not_20M : estimate_cells 100 < 10000000 :=
  lt_trans estimate_cells_100_bounds.2 (by norm_num)

/-- **C1 (amended).** `estimated_cells_per_ml` equals
`clamp(100·e^(0.115·score), 100, 20_000_000)` truncated to an int, is a
monotone non-decreasing function of `risk_score`, and the calibration is:
`score = 50` gives ≈31.4k cells (between 31,100 and 31,500, not ~20k) and
`score = 100` gives ≈9.87M cells (between 9,795,900 and 9,899,500, not
~20M). -/
theorem c1_estimate_cells_amended :
    (∀ s : ℝ, estimate_cells s
      = ⌊min (max (100 * Real.exp (0.115 * s)) 100) (20000000 : ℝ)⌋) ∧
    (∀ s t : ℝ, s ≤ t → estimate_cells s ≤ estimate_cells t) ∧
    (31100 ≤ estimate_cells 50 ∧ estimate_cells 50 < 31500) ∧
    (9795900 ≤ estimate_cells 100 ∧ estimate_cells 100 < 9899500) := by
  refine ⟨?_, ?_, estimate_cells_50_bounds, estimate_cells_100_bounds⟩
  · intro s
    rw [estimate_cells, clipR, mul_comm s 0.115]
  · intro s t hst
    exact estimate_cells_mono hst

/-- Witness for C1 (monotonicity clause) at concrete inputs. -/
theorem c1_estimate_cells_amended_witness :
    estimate_cells 10 ≤ estimate_cells 20 :=
  c1_estimate_cells_amended.2.1 10 20 (by norm_num)

/-- `who_severity` never reports `very_high_risk` below the 10M-cell
breakpoint. -/
theorem who_severity_ne_very_high {c : ℤ} (h : c < 10000000) :
    who_severity c ≠ "very_high_risk" := by
  unfold who_severity
  split_ifs
  · decide
  · decide
  · decide

/-- Python-round bounds: rounding keeps `[0, 1000]` stable. -/
theorem pyRoundR_mem_0_1000 {y : ℝ} (h0 : 0 ≤ y) (h1 : y ≤ 1000) :
    0 ≤ pyRoundR y ∧ pyRoundR y ≤ 1000 := by
  have hfl0 : 0 ≤ ⌊y⌋ := Int.le_floor.mpr (by exact_mod_cast h0)
  have hfl1 : ⌊y⌋ ≤ 1000 := by
    have := Int.floor_le_floor (α := ℝ) h1
    simpa using this
  have hsucc : 1/2 ≤ y - ⌊y⌋ → ⌊y⌋ + 1 ≤ 1000 := by
    intro hh
    have hy : (⌊y⌋ : ℝ) ≤ y - 1/2 := by linarith
    have : (⌊y⌋ : ℝ) < 1000 := by linarith
    have : ⌊y⌋ < 1000 := by exact_mod_cast this
    omega
  unfold pyRoundR
  split_ifs with ha hb hc
  · exact ⟨hfl0, hfl1⟩
  · exact ⟨by omega, hsucc (by linarith)⟩
  · exact ⟨hfl0, hfl1⟩
  · exact ⟨by omega, hsucc (by linarith)⟩

/-- The round-and-clip step shared by both aggregators keeps the risk score
in `[0, 100]`. -/
theorem round_clip_mem (x : ℝ) :
    0 ≤ pyRound1R (clipR x 0 100) ∧ pyRound1R (clipR x 0 100) ≤ 100 := by
  have hc0 : 0 ≤ clipR x 0 100 := le_min (le_max_right x 0) (by norm_num)
  have hc1 : clipR x 0 100 ≤ 100 := min_le_right _ _
  have h := pyRoundR_mem_0_1000 (y := 10 * clipR x 0 100) (by linarith) (by linarith)
  unfold pyRound1R
  constructor
  · have : (0 : ℝ) ≤ (pyRoundR (10 * clipR x 0 100) : ℝ) := by exact_mod_cast h.1
    linarith
  · have : (pyRoundR (10 * clipR x 0 100) : ℝ) ≤ 1000 := by exact_mod_cast h.2
    linarith

/-- Scores in `[0, 100]` estimate strictly fewer than `10M` cells. -/
theorem estimate_cells_lt_10M {s : ℝ} (h1 : s ≤ 100) :
    estimate_cells s < 10000000 := by
  have := estimate_cells_mono h1
  have := estimate_cells_100_bounds.2
  omega

/-- **C4.** For every risk score in the clamped output range `[0, 100]` of
both aggregators, `_estimate_cells` returns at most `100·e^11.5 < 10,000,000`
cells/mL, strictly below the `very_high_risk` breakpoint; hence the WHO
severity reported by `compute_bloom_probability` and `calculate_bloom_risk`
is never `"very_high_risk"`. -/
theorem c4_who_never_very_high :
    (∀ s : ℝ, 0 ≤ s → s ≤ 100 →
      (estimate_cells s : ℝ) ≤ 100 * Real.exp 11.5 ∧
      who_severity (estimate_cells s) ≠ "very_high_risk") ∧
    100 * Real.exp 11.5 < 10000000 ∧
    (∀ t n st l mu : ℝ,
      (calculate_bloom_risk t n st l mu).who_level ≠ "very_high_risk") ∧
    (∀ t n st l mu : ℝ, ∀ cyfi : Option ℝ, ∀ conf : String,
      (compute_bloom_probability t n st l mu cyfi conf).who_severity
        ≠ "very_high_risk") := by
  have hexp := exp_elevenhalf_bounds
  refine ⟨?_, by nlinarith [hexp.2], ?_, ?_⟩
  · intro s hs0 hs1
    constructor
    · have hle : (estimate_cells s : ℝ)
          ≤ clipR (100 * Real.exp (s * 0.115)) 100 20000000 := Int.floor_le _
      have hmax : clipR (100 * Real.exp (s * 0.115)) 100 20000000
          ≤ max (100 * Real.exp (s * 0.115)) 100 := min_le_left _ _
      have hexp_le : Real.exp (s * 0.115) ≤ Real.exp 11.5 :=
        Real.exp_le_exp.mpr (by nlinarith)
      have h100 : (100 : ℝ) ≤ 100 * Real.exp 11.5 := by
        nlinarith [Real.one_le_exp (by norm_num : (0:ℝ) ≤ 11.5)]
      have : max (100 * Real.exp (s * 0.115)) 100 ≤ 100 * Real.exp 11.5 :=
        max_le (by nlinarith) h100
      calc (estimate_cells s : ℝ) ≤ _ := hle
      _ ≤ _ := hmax
      _ ≤ _ := this
    · exact who_severity_ne_very_high (estimate_cells_lt_10M hs1)
  · intro t n st l mu
    show who_severity _ ≠ _
    exact who_severity_ne_very_high
      (estimate_cells_lt_10M (round_clip_mem (pre_clamp_risk t n st l mu)).2)
  · intro t n st l mu cyfi conf
    show who_severity _ ≠ _
    apply who_severity_ne_very_high
    apply estimate_cells_lt_10M
    exact (round_clip_mem _).2

/-- Witness for C4 at risk score 100. -/
theorem c4_who_never_very_high_witness :
    who_severity (estimate_cells 100) ≠ "very_high_risk" :=
  (c4_who_never_very_high.1 100 (by norm_num) (by norm_num)).2

/-- **C5.** Risk-level classification is a piecewise function of the risk
score with four fixed bands and strict `<` on each tier's upper bound:
`score < 25` gives SAFE, `25 ≤ score < 50` gives LOW, `50 ≤ score < 75`
gives WARNING, `score ≥ 75` gives CRITICAL; in particular `24.9 → SAFE`,
`25.0 → LOW`, `49.9 → LOW`, `50.0 → WARNING`, `74.9 → WARNING`,
`75.0 → CRITICAL`. -/
theorem c5_risk_bands :
    (∀ s : ℝ, s < 25 → (classify_risk s).level = "SAFE") ∧
    (∀ s : ℝ, 25 ≤ s → s < 50 → (classify_risk s).level = "LOW") ∧
    (∀ s : ℝ, 50 ≤ s → s < 75 → (classify_risk s).level = "WARNING") ∧
    (∀ s : ℝ, 75 ≤ s → (classify_risk s).level = "CRITICAL") ∧
    (classify_risk 24.9).level = "SAFE" ∧
    (classify_risk 25).level = "LOW" ∧
    (classify_risk 49.9).level = "LOW" ∧
    (classify_risk 50).level = "WARNING" ∧
    (classify_risk 74.9).level = "WARNING" ∧
    (classify_risk 75).level = "CRITICAL" := by
  have hsafe : ∀ s : ℝ, s < 25 → (classify_risk s).level = "SAFE" := by
    intro s h
    unfold classify_risk
    rw [if_pos h]
  have hlow : ∀ s : ℝ, 25 ≤ s → s < 50 → (classify_risk s).level = "LOW" := by
    intro s h1 h2
    unfold classify_risk
    rw [if_neg (not_lt.mpr h1), if_pos h2]
  have hwarn : ∀ s : ℝ, 50 ≤ s → s < 75 → (classify_risk s).level = "WARNING" := by
    intro s h1 h2
    unfold classify_risk
    rw [if_neg (not_lt.mpr (by linarith)), if_neg (not_lt.mpr h1), if_pos h2]
  have hcrit : ∀ s : ℝ, 75 ≤ s → (classify_risk s).level = "CRITICAL" := by
    intro s h1
    unfold classify_risk
    rw [if_neg (not_lt.mpr (by linarith)), if_neg (not_lt.mpr (by linarith)),
      if_neg (not_lt.mpr h1)]
  exact ⟨hsafe, hlow, hwarn, hcrit,
    hsafe 24.9 (by norm_num), hlow 25 (by norm_num) (by norm_num),
    hlow 49.9 (by norm_num) (by norm_num), hwarn 50 (by norm_num) (by norm_num),
    hwarn 74.9 (by norm_num) (by norm_num), hcrit 75 (by norm_num)⟩

/-- Witness for C5 at a concrete score. -/
theorem c5_risk_bands_witness : (classify_risk 10).level = "SAFE" :=
  c5_risk_bands.1 10 (by norm_num)

/-- `pyRoundR` fixes integers. -/
theorem pyRoundR_intCast (n : ℤ) : pyRoundR (n : ℝ) = n := by
  unfold pyRoundR
  rw [if_pos]
  · exact Int.floor_intCast n
  · rw [Int.floor_intCast]
    norm_num

/-- **C8.** In `calculate_bloom_risk`, for `temperature_score = 70` and
`nutrient_score = 70` (both `> 60`) and any stagnation, light and growth
inputs, the interaction boost equals `0.10 × min(70, 70) = 7.0` and the
pre-clamp, pre-round risk score equals the unboosted weighted geometric mean
plus `7.0`; when either `temperature_score ≤ 60` or `nutrient_score ≤ 60`
the boost is `0`. -/
theorem c8_interaction_boost :
    (∀ s l mu : ℝ,
      (calculate_bloom_risk 70 70 s l mu).interaction_boost = 7 ∧
      pre_clamp_risk 70 70 s l mu
        = geo_mean 70 70 s l (growth_score mu) + 7) ∧
    (∀ t n s l mu : ℝ, t ≤ 60 ∨ n ≤ 60 →
      (calculate_bloom_risk t n s l mu).interaction_boost = 0) := by
  have hfn7 : interaction_boost_fn 70 70 = 7 := by
    unfold interaction_boost_fn
    rw [if_pos ⟨by norm_num, by norm_num⟩, min_self]
    norm_num
  constructor
  · intro s l mu
    constructor
    · show pyRound2R (interaction_boost_fn 70 70) = 7
      rw [hfn7]
      unfold pyRound2R
      rw [show (100 : ℝ) * 7 = ((700 : ℤ) : ℝ) by norm_num, pyRoundR_intCast]
      norm_num
    · unfold pre_clamp_risk
      rw [hfn7]
  · intro t n s l mu h
    have hfn0 : interaction_boost_fn t n = 0 := by
      unfold interaction_boost_fn
      rw [if_neg]
      rintro ⟨h1, h2⟩
      rcases h with h | h
      · linarith
      · linarith
    show pyRound2R (interaction_boost_fn t n) = 0
    rw [hfn0]
    unfold pyRound2R
    rw [show (100 : ℝ) * 0 = ((0 : ℤ) : ℝ) by norm_num, pyRoundR_intCast]
    norm_num

/-- Witness for C8 at concrete inputs. -/
theorem c8_interaction_boost_witness :
    (calculate_bloom_risk 70 70 (1:ℝ) 1 0).interaction_boost = 7 ∧
    (calculate_bloom_risk 50 80 (1:ℝ) 1 0).interaction_boost = 0 :=
  ⟨(c8_interaction_boost.1 1 1 0).1,
    c8_interaction_boost.2 50 80 1 1 0 (Or.inl (by norm_num))⟩

/-!
## `analysis/forecast_engine.py`

All arithmetic is rational, so the embedding is over `ℚ` with `Option ℚ`
for nullable daily entries.  `datetime.now()`-based fallback dates are
modelled by a date-generator parameter `gen_date` (index `i` stands for
today + `i` days).  Python `x or default` on a float is falsy at `0.0`,
modelled by `pyOr`.
-/

/-- Python `x or d` on a number already known to be non-null: `d` when
`x == 0` (Python treats `0.0` as falsy), else `x`. -/
def pyOr (v d : ℚ) : ℚ := if v = 0 then d else v

/-- Result record of `build_7day_forecast`. -/
structure ForecastOut where
  dates : List String
  risk_scores : List ℚ
  temp_max : List ℚ
  temp_min : List ℚ
  precip : List ℚ
  wind_max : List ℚ
  uv_max : List ℚ

/-- `_safe_slice(lst, slc, n, default)`: empty list becomes `n` defaults;
otherwise apply the shared forecast slice (`lst[-n:]` when the raw date list
had more than 7 entries, else `lst[0:n]`), replace `None` entries by the
default, and pad to length `n`. -/
def safe_slice (lst : List (Option ℚ)) (use_last : Bool) (n : ℕ) (d : ℚ) : List ℚ :=
  if lst.isEmpty then List.replicate n d
  else
    let sliced := if use_last then lst.drop (lst.length - n) else lst.take n
    let filled := sliced.map (fun v => v.getD d)
    filled ++ List.replicate (n - filled.length) d

/-- One day's raw (momentum-free) projected risk inside the forecast loop. -/
def project_day (current_risk tmx tmn pr wd : ℚ) : ℚ :=
  let t_avg := (pyOr tmx 20 + pyOr tmn 10) / 2
  let rain := pyOr pr 0
  let wind := pyOr wd 10
  let temp_factor := clipQ ((t_avg - 15) / 20) 0 1
  let rain_factor := clipQ (1 - rain / 20) 0 1
  let wind_factor := clipQ (1 - wind / 30) 0 1
  current_risk * 0.5 + (temp_factor * 40 + rain_factor * 15 + wind_factor * 10) * 0.5

/-- The `for i in range(min(7, len(t_max)))` projection loop: momentum blend
with the previous day for `i > 0`, then clip to `[0, 100]` and round to one
decimal. -/
def build_risk_scores (t_max t_min p_sum w_max : List ℚ) (current_risk : ℚ) : List ℚ :=
  (List.range (min 7 t_max.length)).foldl
    (fun acc i =>
      let projected := project_day current_risk (t_max.getD i 0) (t_min.getD i 0)
        (p_sum.getD i 0) (w_max.getD i 0)
      let projected := if 0 < i then projected * 0.7 + acc.getLastD 0 * 0.3 else projected
      acc ++ [pyRound1Q (clipQ projected 0 100)]) []

/-- The `while len(risk_scores) < 7` pad: repeat the last score (or the
current risk when the loop produced nothing). -/
def pad_risk (rs : List ℚ) (current_risk : ℚ) : List ℚ :=
  rs ++ List.replicate (7 - rs.length) (rs.getLastD current_risk)

/-- `build_7day_forecast(raw, current_risk)`: the six daily arrays are read
out of `raw["weather"]["daily"]` (empty lists when missing) and passed here
directly. -/
def build_7day_forecast (dates_raw : List String)
    (temp_max temp_min precip_sum wind_max uv_max : List (Option ℚ))
    (current_risk : ℚ) (gen_date : ℕ → String) : ForecastOut :=
  let n := min 7 dates_raw.length
  let use_last := decide (7 < dates_raw.length)
  let t_max := safe_slice temp_max use_last n 20
  let t_min := safe_slice temp_min use_last n 10
  let p_sum := safe_slice precip_sum use_last n 0
  let w_max := safe_slice wind_max use_last n 10
  let u_max := safe_slice uv_max use_last n 3
  let dates0 := if dates_raw.isEmpty then []
    else if use_last then dates_raw.drop (dates_raw.length - n) else dates_raw.take n
  let dates := if dates0.length < 7 then (List.range 7).map gen_date else dates0
  let risk_scores :=
    pad_risk (build_risk_scores t_max t_min p_sum w_max current_risk) current_risk
  { dates := dates.take 7
    risk_scores := risk_scores.take 7
    temp_max := t_max.take 7
    temp_min := t_min.take 7
    precip := p_sum.take 7
    wind_max := w_max.take 7
    uv_max := u_max.take 7 }

/-- **C2 (code bug).** The claim (and the function's own docstring) promise
all seven returned lists have length exactly 7 for raw inputs of 0, 3 or 10
days.  In fact `_safe_slice` pads only to `n = min(7, len(dates_raw))`, so
with 3 raw forecast days the five weather arrays come back with length 3
(and with 0 raw days, length 0), while `dates` and `risk_scores` are always
padded to 7.  This theorem evaluates the embedding at those failing inputs
and at a 10-day input where the invariant does hold. -/
theorem c2_forecast_length_bug :
    (build_7day_forecast ["d1", "d2", "d3"]
        [some 21, some 22, some 23] [some 11, some 12, some 13]
        [some 0, some 1, some 2] [some 5, some 6, some 7]
        [some 3, some 4, some 5] 55 (fun i => toString i)).temp_max.length = 3 ∧
    (build_7day_forecast ["d1", "d2", "d3"]
        [some 21, some 22, some 23] [some 11, some 12, some 13]
        [some 0, some 1, some 2] [some 5, some 6, some 7]
        [some 3, some 4, some 5] 55 (fun i => toString i)).uv_max.length = 3 ∧
    (build_7day_forecast ["d1", "d2", "d3"]
        [some 21, some 22, some 23] [some 11, some 12, some 13]
        [some 0, some 1, some 2] [some 5, some 6, some 7]
        [some 3, some 4, some 5] 55 (fun i => toString i)).dates.length = 7 ∧
    (build_7day_forecast ["d1", "d2", "d3"]
        [some 21, some 22, some 23] [some 11, some 12, some 13]
        [some 0, some 1, some 2] [some 5, some 6, some 7]
        [some 3, some 4, some 5] 55 (fun i => toString i)).risk_scores.length = 7 ∧
    (build_7day_forecast [] [] [] [] [] [] 40 (fun i => toString i)).temp_max.length = 0 ∧
    (build_7day_forecast [] [] [] [] [] [] 40 (fun i => toString i)).risk_scores.length = 7 ∧
    (build_7day_forecast
        ["d1", "d2", "d3", "d4", "d5", "d6", "d7", "d8", "d9", "d10"]
        (List.replicate 10 (some 21)) (List.replicate 10 (some 11))
        (List.replicate 10 (some 1)) (List.replicate 10 (some 5))
        (List.replicate 10 (some 3)) 55 (fun i => toString i)).temp_max.length = 7 := by
  exact ⟨rfl, rfl, rfl, rfl, rfl, rfl, rfl⟩

/-!
## `analysis/trend_analysis.py` — Theil-Sen (`sens_slope`)

`np.asarray(data, float)` makes the input a numeric list; all arithmetic is
rational.  The function body contains no `raise` on any path, so the
embedding into `Except` (the error channel a caller would observe) is
total-`ok` by construction.
-/

/-- Python `round(x, 6)` on rationals. -/
def pyRound6Q (x : ℚ) : ℚ := (pyRoundQ (1000000 * x) : ℚ) / 1000000

/-- Python `round(x, 4)` on rationals. -/
def pyRound4Q (x : ℚ) : ℚ := (pyRoundQ (10000 * x) : ℚ) / 10000

/-- `np.median`: middle element of the sorted list, or the mean of the two
middle elements for even length. -/
def npMedian (l : List ℚ) : ℚ :=
  let s := l.mergeSort (· ≤ ·)
  let n := l.length
  if n = 0 then 0
  else if n % 2 = 1 then s.getD (n / 2) 0
  else (s.getD (n / 2 - 1) 0 + s.getD (n / 2) 0) / 2

/-- `itertools.combinations(range(n), 2)`: index pairs `(i, j)` with
`i < j`, in iteration order. -/
def pair_indices (n : ℕ) : List (ℕ × ℕ) :=
  (List.range n).flatMap
    (fun i => (List.range n).filterMap (fun j => if i < j then some (i, j) else none))

/-- Result record of `sens_slope`. -/
structure SensResult where
  slope : ℚ
  intercept : ℚ
  n_slopes : ℕ

/-- `sens_slope(data)`: Theil-Sen estimator.  Every return path of the
source is a plain `return`-a-dict (no `raise` anywhere), hence every branch
is `Except.ok`. -/
def sens_slope (data : List ℚ) : Except String SensResult :=
  let n := data.length
  if n < 2 then
    .ok { slope := 0, intercept := if n = 1 then data.headD 0 else 0, n_slopes := 0 }
  else
    let slopes := (pair_indices n).filterMap (fun p =>
      if p.2 - p.1 ≠ 0 then
        some ((data.getD p.2 0 - data.getD p.1 0) / ((p.2 : ℚ) - (p.1 : ℚ)))
      else none)
    if slopes.isEmpty then
      .ok { slope := 0, intercept := npMedian data, n_slopes := 0 }
    else
      let median_slope := npMedian slopes
      let intercepts := (List.range n).map
        (fun i : ℕ => data.getD i 0 - median_slope * (i : ℚ))
      .ok { slope := pyRound6Q median_slope
            intercept := pyRound4Q (npMedian intercepts)
            n_slopes := slopes.length }

/-- Whether a `sens_slope` outcome is an error surfaced to the caller. -/
def sens_is_error (r : Except String SensResult) : Bool :=
  match r with
  | .error _ => true
  | .ok _ => false

/-- **C3 (counterexample).** Calling `sens_slope` with fewer than 2 points
does not surface an explicit error: at the empty series it returns the
ordinary fallback value `{slope: 0.0, intercept: 0.0, n_slopes: 0}`. -/
theorem c3_sens_slope_no_error :
    sens_is_error (sens_slope []) = false ∧
    sens_slope [] = .ok { slope := 0, intercept := 0, n_slopes := 0 } :=
  ⟨rfl, rfl⟩

/-- **C3 (amended).** The Theil-Sen estimator structurally requires at least
2 points, but a call with fewer than 2 points is handled as a silent
value-level fallback, not an explicit error: it returns
`{slope: 0.0, intercept: x[0] if n == 1 else 0.0, n_slopes: 0}`. -/
theorem c3_sens_slope_fallback (data : List ℚ) (h : data.length < 2) :
    sens_slope data
      = .ok { slope := 0, intercept := data.headD 0, n_slopes := 0 } := by
  match data with
  | [] => rfl
  | [a] => rfl
  | a :: b :: t => exact absurd h (by simp)

/-- Witness for C3 (amended) at the one-point series `[5]`. -/
theorem c3_sens_slope_fallback_witness :
    sens_slope [5] = .ok { slope := 0, intercept := 5, n_slopes := 0 } :=
  c3_sens_slope_fallback [5] (by norm_num)

/-!
## `temperature_features.py` — `trend_slope_7day`

NaN entries of the input array are modelled as `none`; the code keeps
`temps[-7:]`, drops NaNs, and runs a plain OLS on indices `0..m-1`.
-/

/-- The valid values used by `trend_slope_7day`: last 7 entries with NaNs
removed. -/
def validLast7 (temps : List (Option ℚ)) : List ℚ :=
  (temps.drop (temps.length - 7)).filterMap id

/-- The OLS index list `np.arange(len(recent))`. -/
def olsXs (m : ℕ) : List ℚ := (List.range m).map (fun i : ℕ => (i : ℚ))

/-- `ss_xx = Σ (x - x̄)²` over indices `0..m-1`. -/
def olsSxx (ys : List ℚ) : ℚ :=
  let m := ys.length
  let x_mean := (olsXs m).sum / m
  ((olsXs m).map (fun x => (x - x_mean) ^ 2)).sum

/-- `ss_xy = Σ (x - x̄)(y - ȳ)`. -/
def olsSxy (ys : List ℚ) : ℚ :=
  let m := ys.length
  let x_mean := (olsXs m).sum / m
  let y_mean := ys.sum / m
  (((olsXs m).zip ys).map (fun p => (p.1 - x_mean) * (p.2 - y_mean))).sum

/-- `trend_slope_7day(temps)`: OLS slope over the last ≤7 non-NaN values;
`0.0` for fewer than 3 valid points or a zero `ss_xx`. -/
def trend_slope_7day (temps : List (Option ℚ)) : ℚ :=
  let recent := validLast7 temps
  if recent.length < 3 then 0
  else if olsSxx recent = 0 then 0
  else olsSxy recent / olsSxx recent

/-- For at least 3 valid points the OLS denominator `ss_xx` is strictly
positive (the index design points `0..m-1` are not all equal). -/
theorem olsSxx_pos (ys : List ℚ) (h : 3 ≤ ys.length) : 0 < olsSxx ys := by
  unfold olsSxx
  dsimp only
  have hx_nonneg : ∀ x ∈ olsXs ys.length, (0 : ℚ) ≤ x := by
    intro x hx
    simp only [olsXs, List.mem_map, List.mem_range] at hx
    obtain ⟨i, _, rfl⟩ := hx
    exact Nat.cast_nonneg i
  have h1mem : (1 : ℚ) ∈ olsXs ys.length := by
    simp only [olsXs, List.mem_map, List.mem_range]
    exact ⟨1, by omega, Nat.cast_one⟩
  have h0mem : (0 : ℚ) ∈ olsXs ys.length := by
    simp only [olsXs, List.mem_map, List.mem_range]
    exact ⟨0, by omega, Nat.cast_zero⟩
  have hsum : (1 : ℚ) ≤ (olsXs ys.length).sum :=
    List.single_le_sum hx_nonneg 1 h1mem
  have hlen0 : 0 < ys.length := by omega
  have hmpos : (0 : ℚ) < (ys.length : ℚ) := by exact_mod_cast hlen0
  have hxm_pos : 0 < (olsXs ys.length).sum / (ys.length : ℚ) :=
    div_pos (by linarith) hmpos
  have hsq_mem : ((0 : ℚ) - (olsXs ys.length).sum / (ys.length : ℚ)) ^ 2
      ∈ (olsXs ys.length).map
        (fun x => (x - (olsXs ys.length).sum / (ys.length : ℚ)) ^ 2) :=
    List.mem_map.mpr ⟨0, h0mem, rfl⟩
  have hterm : (0 : ℚ) < ((0 : ℚ) - (olsXs ys.length).sum / (ys.length : ℚ)) ^ 2 := by
    have heq : ((0 : ℚ) - (olsXs ys.length).sum / (ys.length : ℚ)) ^ 2
        = ((olsXs ys.length).sum / (ys.length : ℚ)) ^ 2 := by ring
    rw [heq]
    exact pow_pos hxm_pos 2
  have hall : ∀ z ∈ (olsXs ys.length).map
      (fun x => (x - (olsXs ys.length).sum / (ys.length : ℚ)) ^ 2), (0 : ℚ) ≤ z := by
    intro z hz
    obtain ⟨x, _, rfl⟩ := List.mem_map.mp hz
    positivity
  have := List.single_le_sum hall _ hsq_mem
  linarith

/-- **C6.** `trend_slope_7day` computes the OLS slope over the valid (non-NaN)
values among the last 7 entries of the temperature series: it returns `0.0`
when fewer than 3 valid points remain, and otherwise its result is the unique
solution of the OLS normal equation `slope · ss_xx = ss_xy` (with `ss_xx`
strictly positive). -/
theorem c6_trend_slope_7day (temps : List (Option ℚ)) :
    ((validLast7 temps).length < 3 → trend_slope_7day temps = 0) ∧
    (3 ≤ (validLast7 temps).length →
      0 < olsSxx (validLast7 temps) ∧
      trend_slope_7day temps * olsSxx (validLast7 temps) = olsSxy (validLast7 temps)) := by
  constructor
  · intro h
    unfold trend_slope_7day
    dsimp only
    rw [if_pos h]
  · intro h
    have hpos := olsSxx_pos _ h
    refine ⟨hpos, ?_⟩
    unfold trend_slope_7day
    dsimp only
    rw [if_neg (by omega), if_neg (ne_of_gt hpos)]
    exact div_mul_cancel₀ _ (ne_of_gt hpos)

/-- Witness for C6 at a 2-point series. -/
theorem c6_trend_slope_7day_witness :
    trend_slope_7day [some 1, some 2] = 0 :=
  (c6_trend_slope_7day [some 1, some 2]).1 (by decide)

/-!
## `analysis/trend_analysis.py` — Mann-Kendall test

The S statistic, tie correction and variance are rational and computable.
The continuity-corrected z-score needs a real square root, and the two-tailed
p-value `2 * (1 - norm.cdf(|z|))` uses `scipy.stats.norm.cdf` — an external
library function, modelled as an explicit parameter `cdf`.
-/

/-- Python `round(x, 4)` on reals. -/
noncomputable def pyRound4R (x : ℝ) : ℝ := (pyRoundR (10000 * x) : ℝ) / 10000

/-- Python `round(x, 6)` on reals. -/
noncomputable def pyRound6R (x : ℝ) : ℝ := (pyRoundR (1000000 * x) : ℝ) / 1000000

/-- The Mann-Kendall S statistic: sum of `sign(x_j - x_i)` over all index
pairs `i < j` (grouped by `i`, matching `combinations(range(n), 2)`). -/
def mkS : List ℚ → ℤ
  | [] => 0
  | a :: t => (t.map (fun b => if a < b then (1 : ℤ) else if b < a then -1 else 0)).sum + mkS t

/-- The tie correction `Σ t(t-1)(2t+5)` over groups of tied values
(`np.unique` counts, groups with `t > 1`). -/
def tieCorrection (x : List ℚ) : ℚ :=
  (x.dedup.map (fun v =>
    let t := x.count v
    if 1 < t then (t : ℚ) * ((t : ℚ) - 1) * (2 * (t : ℚ) + 5) else 0)).sum

/-- The Mann-Kendall variance `(n(n-1)(2n+5) - tie_correction) / 18`. -/
def varS (n : ℕ) (tc : ℚ) : ℚ :=
  ((n : ℚ) * ((n : ℚ) - 1) * (2 * (n : ℚ) + 5) - tc) / 18

/-- The continuity-corrected z-score. -/
noncomputable def mkZ (s : ℤ) (v : ℚ) : ℝ :=
  if v = 0 then 0
  else if 0 < s then ((s : ℝ) - 1) / Real.sqrt (v : ℝ)
  else if s < 0 then ((s : ℝ) + 1) / Real.sqrt (v : ℝ)
  else 0

/-- The two-tailed p-value `2 * (1 - cdf(|z|))` from the standard normal
CDF supplied by `scipy.stats.norm`. -/
def mkP (cdf : ℝ → ℝ) (z : ℝ) : ℝ := 2 * (1 - cdf |z|)

/-- Result record of `mann_kendall_test`. -/
structure MKResult where
  S : ℤ
  var_S : ℚ
  z_score : ℝ
  p_value : ℝ
  trend : String
  significant : Bool

/-- `mann_kendall_test(data)`: early neutral return for fewer than 3 points;
otherwise S, tie-corrected variance, continuity-corrected z, two-tailed
p-value, and classification at `α = 0.05`.  The returned `var_S`, `z_score`
and `p_value` are rounded for display (4/4/6 decimals); the classification
uses the raw p-value, as in the source. -/
noncomputable def mann_kendall_test (cdf : ℝ → ℝ) (data : List ℚ) : MKResult :=
  let n := data.length
  if n < 3 then
    { S := 0, var_S := 0, z_score := 0, p_value := 1,
      trend := "no trend", significant := false }
  else
    let s := mkS data
    let v := varS n (tieCorrection data)
    let z := mkZ s v
    let p := mkP cdf z
    { S := s
      var_S := pyRound4Q v
      z_score := pyRound4R z
      p_value := pyRound6R p
      trend := if p ≤ 0.05 then (if 0 < s then "increasing" else "decreasing")
        else "no trend"
      significant := if p ≤ 0.05 then true else false }

/-- On a pairwise-increasing list, twice the S statistic is `n(n-1)`. -/
theorem mkS_pairwise_lt (l : List ℚ) (h : List.Pairwise (· < ·) l) :
    2 * mkS l = (l.length : ℤ) * ((l.length : ℤ) - 1) := by
  induction l with
  | nil => rfl
  | cons a t ih =>
    rw [List.pairwise_cons] at h
    have hmap : t.map (fun b => if a < b then (1 : ℤ) else if b < a then -1 else 0)
        = t.map (fun _ => (1 : ℤ)) := by
      apply List.map_congr_left
      intro b hb
      rw [if_pos (h.1 b hb)]
    have hsum : (t.map (fun b => if a < b then (1 : ℤ) else if b < a then -1 else 0)).sum
        = (t.length : ℤ) := by
      rw [hmap]
      simp
    have iht := ih h.2
    show 2 * ((t.map (fun b => if a < b then (1 : ℤ) else if b < a then -1 else 0)).sum
      + mkS t) = _
    rw [hsum]
    simp only [List.length_cons]
    push_cast
    linarith [iht]

/-- On a pairwise-increasing (hence duplicate-free) list the tie correction
vanishes. -/
theorem tieCorrection_pairwise_lt (l : List ℚ) (h : List.Pairwise (· < ·) l) :
    tieCorrection l = 0 := by
  have hnodup : l.Nodup := h.imp ne_of_lt
  apply List.sum_eq_zero
  intro z hz
  obtain ⟨v, hv, rfl⟩ := List.mem_map.mp hz
  have hcount : l.count v = 1 :=
    List.count_eq_one_of_mem hnodup (List.mem_dedup.mp hv)
  simp [hcount]

/-- **C9.** For every strictly increasing series of length `n ≥ 3`,
`mann_kendall_test` returns `S = n(n-1)/2` (sum of signs over all pairs,
with zero tie correction), and reports `trend = "increasing"` whenever the
two-tailed normal p-value computed from the continuity-corrected z-score is
at most `0.05`. -/
theorem c9_mann_kendall_increasing (cdf : ℝ → ℝ) (data : List ℚ)
    (hlen : 3 ≤ data.length) (hinc : List.Chain' (· < ·) data) :
    (mann_kendall_test cdf data).S
      = (data.length : ℤ) * ((data.length : ℤ) - 1) / 2 ∧
    tieCorrection data = 0 ∧
    (mkP cdf (mkZ (mkS data) (varS data.length (tieCorrection data))) ≤ 0.05 →
      (mann_kendall_test cdf data).trend = "increasing") := by
  have hpw : List.Pairwise (· < ·) data := List.chain'_iff_pairwise.mp hinc
  have h2S := mkS_pairwise_lt data hpw
  have hSpos : 0 < mkS data := by
    have hn : (3 : ℤ) ≤ (data.length : ℤ) := by exact_mod_cast hlen
    nlinarith [h2S]
  refine ⟨?_, tieCorrection_pairwise_lt data hpw, ?_⟩
  · unfold mann_kendall_test
    rw [if_neg (by omega)]
    dsimp only
    omega
  · intro hp
    unfold mann_kendall_test
    rw [if_neg (by omega)]
    dsimp only
    rw [if_pos hp, if_pos hSpos]

/-- Witness for C9: the strictly increasing 4-point series `[1,2,3,4]` with
a CDF making the p-value `0`. -/
theorem c9_mann_kendall_increasing_witness :
    (mann_kendall_test (fun _ => 1) [1, 2, 3, 4]).S = 6 ∧
    (mann_kendall_test (fun _ => 1) [1, 2, 3, 4]).trend = "increasing" := by
  have h := c9_mann_kendall_increasing (fun _ => 1) [1, 2, 3, 4]
    (by norm_num) (by norm_num)
  constructor
  · have h1 := h.1
    norm_num at h1
    exact h1
  · exact h.2.2 (by norm_num [mkP])

end Aquawatch
